import Mathlib

/-!
Shallow embedding of the Bridged IRC Client (src/lib/irc/BridgedClient.js)
of the matrix-appservice-irc repository, together with theorems settling
the specification claims about it.

JavaScript strings are modelled as lists of characters (`Str`); the raw
IRC client handle, the connection instance and the per-session state are
modelled as explicit structures; fallible code returns `Except`; the
asynchronous correlators (the nick-change listeners and the join retry
timer) are modelled as explicit step functions on small state types.
-/

/-- Strings of the JavaScript source, modelled as lists of characters. -/
abbrev Str := List Char

/-- An ASCII letter, the `[A-Za-z]` character class. -/
def isAsciiLetter (c : Char) : Bool :=
  (Char.ofNat 65 ≤ c && c ≤ Char.ofNat 90) || (Char.ofNat 97 ≤ c && c ≤ Char.ofNat 122)

/-- An ASCII digit, the `[0-9]` character class. -/
def isDigitChar (c : Char) : Bool :=
  Char.ofNat 48 ≤ c && c ≤ Char.ofNat 57

/-- The ten punctuation characters permitted in nicks by
`BridgedClient.illegalCharactersRegex` (RFC 2812 section 2.3.1):
right bracket, left bracket, caret, backslash, left brace, right brace,
hyphen, backquote, underscore, vertical bar. -/
def nickPunct : List Char :=
  [Char.ofNat 93, Char.ofNat 91, Char.ofNat 94, Char.ofNat 92, Char.ofNat 123,
   Char.ofNat 125, Char.ofNat 45, Char.ofNat 96, Char.ofNat 95, Char.ofNat 124]

/-- A character kept by the strip step of `_getValidNick`: the complement of
`BridgedClient.illegalCharactersRegex = /[^A-Za-z0-9\]\[\^\\\{\}\-`_\|]/g`. -/
def legalNickChar (c : Char) : Bool :=
  isAsciiLetter c || isDigitChar c || nickPunct.contains c

/-- The `/^[A-Za-z]/` test of `_getValidNick`. -/
def startsWithLetter : Str → Bool
  | [] => false
  | c :: _ => isAsciiLetter c

/-- One of the four channel-name characters `#`, `!`, `&`, `+`. -/
def isChanChar (c : Char) : Bool :=
  c = Char.ofNat 35 || c = Char.ofNat 33 || c = Char.ofNat 38 || c = Char.ofNat 43

/-- The `channel.indexOf("#") !== 0` test of `_leaveChannel` and `kick`,
negated: true when the string begins with `#`. -/
def startsWithHash : Str → Bool
  | [] => false
  | c :: _ => c = Char.ofNat 35

/-- A single-quote character, used in the user-facing messages of the source. -/
def squote : String := String.mk [Char.ofNat 39]

/-- The raw line-level IRC client handle (`this.unsafeClient`), with the
introspection the Bridged Client consumes: the joined-channel map `chans`
(modelled by its key list) and the optional server-advertised
`supported.nicklength`. -/
structure RawClient where
  chans : List Str
  nicklength : Option Nat
deriving DecidableEq, Repr

/-- The slice of the injected server descriptor consumed by the modelled
operations: the excluded-channel predicate, the "initial" membership-mirror
policy and the idle timeout in seconds. -/
structure ServerCfg where
  excluded : Str → Bool
  mirrorInitial : Bool
  idleTimeout : Nat

/-- The connection instance handle (`this.inst`), with its liveness flag. -/
structure Inst where
  dead : Bool
deriving DecidableEq, Repr

/-- The Bridged Client session state touched by the modelled operations. -/
structure Session where
  server : ServerCfg
  isBot : Bool
  nick : Str
  chanList : List Str
  unsafeClient : Option RawClient
  inst : Option Inst
  connectPending : Bool
  explicitDisconnect : Bool

/-- The `!this.inst || this.inst.dead` test used by `_leaveChannel`,
`kick` and `disconnect`. -/
def instDead (s : Session) : Bool :=
  match s.inst with
  | none => true
  | some i => i.dead

/-- The nick validator `BridgedClient.prototype._getValidNick`.
Strips illegal characters, forces a leading letter by prepending `M`, and,
only when a raw client handle is live, truncates to the server-advertised
`supported.nicklength` (defaulting to the RFC 1459 maximum of 9 when the
client advertises none).  With `throwOnInvalid` set, each transformation
that would alter the input raises a human-readable error instead. -/
def getValidNick (nick : Str) (throwOnInvalid : Bool) (client : Option RawClient) :
    Except String Str :=
  let n := nick.filter legalNickChar
  if throwOnInvalid ∧ ¬ n = nick then
    Except.error ("Nick " ++ squote ++ String.mk nick ++ squote ++
      " contains illegal characters.")
  else if throwOnInvalid ∧ startsWithLetter n = false then
    Except.error ("Nick " ++ squote ++ String.mk nick ++ squote ++
      " must start with a letter.")
  else
    let n2 := if startsWithLetter n then n else Char.ofNat 77 :: n
    match client with
    | none => Except.ok n2
    | some cli =>
      let maxNickLen := cli.nicklength.getD 9
      if n2.length > maxNickLen then
        if throwOnInvalid then
          Except.error ("Nick " ++ squote ++ String.mk nick ++ squote ++
            " is too long. (Max: " ++ toString maxNickLen ++ ")")
        else
          Except.ok (n2.take maxNickLen)
      else
        Except.ok n2

/-- Sanity check, the nick-coercion scenario of the spec: `"123bob!"`
with no live client coerces to `"M123bob"`. -/
theorem getValidNick_coercion_check :
    getValidNick ['1', '2', '3', 'b', 'o', 'b', '!'] false none =
      Except.ok [Char.ofNat 77, '1', '2', '3', 'b', 'o', 'b'] := by rfl

/-- Sanity check, the nick-truncation scenario of the spec:
`"alexandermax"` under advertised NICKLEN 9 coerces to `"alexander"`. -/
theorem getValidNick_truncation_check :
    getValidNick ['a', 'l', 'e', 'x', 'a', 'n', 'd', 'e', 'r', 'm', 'a', 'x']
      false (some { chans := [], nicklength := some 9 }) =
      Except.ok ['a', 'l', 'e', 'x', 'a', 'n', 'd', 'e', 'r'] := by rfl

/-- `BridgedClient.prototype._addChannel`: push the channel unless already
present (`indexOf` check then `push`). -/
def addChannel (l : List Str) (c : Str) : List Str :=
  if c ∈ l then l else l ++ [c]

/-- `BridgedClient.prototype._removeChannel`: splice out the first occurrence
found by `indexOf`, doing nothing when absent. -/
def removeChannel (l : List Str) (c : Str) : List Str :=
  if c ∈ l then l.erase c else l

/-- The synchronous routing decision taken at the head of
`BridgedClient.prototype._joinChannel`, in source order: missing client
(wait on the connect defer when pending, otherwise reject "No client");
channel already among the raw client's `chans` (resolve with a room);
the `/[#!&+]/` containment test failing (private-message target, resolve
with a room); excluded channel (reject); otherwise proceed to a network
JOIN.  The resolving constructors carry the channel of the
`IrcRoom(server, channel)` descriptor; `proceedJoin` carries the channel
and optional key of the outbound JOIN. -/
inductive JoinDecision where
  | waitForConnect
  | rejectNoClient
  | resolveExisting (channel : Str)
  | resolvePM (channel : Str)
  | rejectExcluded (channel : Str)
  | proceedJoin (channel : Str) (key : Option Str)
deriving DecidableEq, Repr

def joinChannelDecision (s : Session) (channel : Str) (key : Option Str) : JoinDecision :=
  match s.unsafeClient with
  | none => if s.connectPending then .waitForConnect else .rejectNoClient
  | some cli =>
    if channel ∈ cli.chans then .resolveExisting channel
    else if channel.any isChanChar = false then .resolvePM channel
    else if s.server.excluded channel then .rejectExcluded channel
    else .proceedJoin channel key

/-- True exactly when the decision issues a network JOIN. -/
def sendsJoin : JoinDecision → Bool
  | .proceedJoin _ _ => true
  | _ => false

/-- The state effect of the synchronous part of `_joinChannel`: on
`proceedJoin` the channel is added to `chanList` (line `this._addChannel`)
before the JOIN is sent; every other decision leaves the session alone. -/
def joinChannelStep (s : Session) (channel : Str) (key : Option Str) :
    Session × JoinDecision :=
  match joinChannelDecision s channel key with
  | .proceedJoin c k =>
    ({ s with chanList := addChannel s.chanList channel }, .proceedJoin c k)
  | d => (s, d)

/-- `JOIN_TIMEOUT_MS = 15 * 1000`. -/
def JOIN_TIMEOUT_MS : Nat := 15 * 1000

/-- `NICK_DELAY_TIMER_MS = 10 * 1000`. -/
def NICK_DELAY_TIMER_MS : Nat := 10 * 1000

/-- What the 15-second retry timer of `_joinChannel` does when it fires. -/
inductive JoinTimerAction where
  | nothing
  | resolveJoined (channel : Str)
  | rejectTries
  | retry (attempt : Nat)
deriving DecidableEq, Repr

/-- The body of the `setTimeout` callback in `_joinChannel`: bail out when
the client handle is gone; when the promise is still pending AND the channel
is still wanted (present in `chanList`): resolve if the raw client's `chans`
now contains the channel, reject after 5 attempts, otherwise retry with an
incremented attempt count.  In all remaining cases do nothing. -/
def joinTimerStep (s : Session) (channel : Str) (pending : Bool)
    (attemptCount : Nat) : JoinTimerAction :=
  match s.unsafeClient with
  | none => .nothing
  | some cli =>
    if pending ∧ channel ∈ s.chanList then
      if channel ∈ cli.chans then .resolveJoined channel
      else if attemptCount ≥ 5 then .rejectTries
      else .retry (attemptCount + 1)
    else .nothing

/-- `BridgedClient.prototype._leaveChannel`, synchronous part: resolve as a
no-op when disconnected, when the channel does not begin with `#`
(`channel.indexOf("#") !== 0`), or when the channel is not in `chanList`;
otherwise remove the channel from `chanList` and send the PART.  The boolean
of the result is true exactly when a PART is sent. -/
def leaveChannelStep (s : Session) (channel : Str) : Session × Bool :=
  if instDead s then (s, false)
  else if startsWithHash channel = false then (s, false)
  else if channel ∉ s.chanList then (s, false)
  else ({ s with chanList := removeChannel s.chanList channel }, true)

/-- `BridgedClient.prototype.disconnect`: always set `explicitDisconnect`;
delegate to the connection instance only when one exists and is not dead.
The boolean is true exactly when `inst.disconnect(reason)` is invoked. -/
def disconnectStep (s : Session) : Session × Bool :=
  ({ s with explicitDisconnect := true }, ¬ instDead s)

/-- The body of the idle-timeout callback armed by
`BridgedClient.prototype._keepAlive`: do nothing when the server mirrors
matrix membership for phase "initial", do nothing for the bot session, and
otherwise call `disconnect` with reason `"Idle timeout reached: Ns"`.  The
optional string is the reason of the single `disconnect` call, `none` when
no disconnect happens. -/
def keepAliveExpire (s : Session) : Session × Option String :=
  if s.server.mirrorInitial then (s, none)
  else if s.isBot then (s, none)
  else
    ((disconnectStep s).1,
     some ("Idle timeout reached: " ++ toString s.server.idleTimeout ++ "s"))

/-- The arming condition of `_keepAlive`: a timer is started only when the
configured idle timeout is positive. -/
def keepAliveArms (s : Session) : Bool := s.server.idleTimeout > 0

/-- `BridgedClient.prototype.kill`: null out the raw-client handle, then
`disconnect(reason || "Bridged client killed")`. -/
def killStep (s : Session) : Session × Bool :=
  disconnectStep { s with unsafeClient := none }

/-- Modelled from the spec: `ConnectionInstance.disconnect` (section 4.4,
a collaborator whose source is not part of this repository) is idempotent
and transitions the instance to `dead = true`; `killCompleted` is the
session state after `kill` and the disconnect it delegates to have both
completed. -/
def killCompleted (s : Session) : Session :=
  let s1 := (killStep s).1
  { s1 with inst := s1.inst.map (fun i => { i with dead := true }) }

/-- How a public operation settles, abstracted for lifecycle reasoning:
`resolveLocal` resolves without any network traffic (a no-op or a
locally-computed value); `reject msg` rejects with the given sentinel
message; `nullClientError` is a TypeError raised or rejected by reading a
property of a null handle; `sendsNetwork` puts bytes on the wire;
`waitsForConnect` queues on the connect-ready barrier. -/
inductive OpOutcome where
  | resolveLocal
  | reject (msg : String)
  | nullClientError
  | sendsNetwork
  | waitsForConnect
deriving DecidableEq, Repr

/-- The settling behaviour of `_joinChannel` as seen by its caller
(derived from `joinChannelDecision`). -/
def joinOutcome (s : Session) (channel : Str) (key : Option Str) : OpOutcome :=
  match joinChannelDecision s channel key with
  | .waitForConnect => .waitsForConnect
  | .rejectNoClient => .reject "No client"
  | .resolveExisting _ => .resolveLocal
  | .resolvePM _ => .resolveLocal
  | .rejectExcluded c => .reject (String.mk c ++ " is a do-not-track channel.")
  | .proceedJoin _ _ => .sendsNetwork

/-- The settling behaviour of `_leaveChannel` as seen by its caller. -/
def leaveOutcome (s : Session) (channel : Str) : OpOutcome :=
  if (leaveChannelStep s channel).2 then .sendsNetwork else .resolveLocal

/-- `BridgedClient.prototype.kick`, in source order: no-op when
disconnected; then `Object.keys(this.unsafeClient.chans)` (a TypeError when
the handle is null); no-op when not joined to the channel or when the
channel does not begin with `#`; otherwise send `KICK`. -/
def kickOutcome (s : Session) (channel : Str) : OpOutcome :=
  if instDead s then .resolveLocal
  else
    match s.unsafeClient with
    | none => .nullClientError
    | some cli =>
      if channel ∉ cli.chans then .resolveLocal
      else if startsWithHash channel = false then .resolveLocal
      else .sendsNetwork

/-- `BridgedClient.prototype.whois`: calls `self.unsafeClient.whois(...)`
with no null check, so a null handle rejects with a TypeError; otherwise a
WHOIS goes out. -/
def whoisOutcome (s : Session) : OpOutcome :=
  match s.unsafeClient with
  | none => .nullClientError
  | some _ => .sendsNetwork

/-- `BridgedClient.prototype.getNicks`: calls `self.unsafeClient.names(...)`
with no null check, so a null handle rejects with a TypeError; otherwise a
NAMES goes out. -/
def getNicksOutcome (s : Session) : OpOutcome :=
  match s.unsafeClient with
  | none => .nullClientError
  | some _ => .sendsNetwork

/-- The synchronous part of `BridgedClient.prototype.changeNick`: validate
(rejecting on a validation error), resolve with the "already" message when
the valid nick equals the current nick, reject "You are not connected to
the network." when the client handle is null, and otherwise send `NICK`. -/
def changeNickOutcome (s : Session) (newNick : Str) (throwOnInvalid : Bool) :
    OpOutcome :=
  match getValidNick newNick throwOnInvalid s.unsafeClient with
  | .error e => .reject e
  | .ok validNick =>
    if validNick = s.nick then .resolveLocal
    else
      match s.unsafeClient with
      | none => .reject "You are not connected to the network."
      | some _ => .sendsNetwork

/-- The settling behaviour of `BridgedClient.prototype.disconnect`. -/
def disconnectOutcome (s : Session) : OpOutcome :=
  if (disconnectStep s).2 then .sendsNetwork else .resolveLocal

/-- `BridgedClient.prototype.sendAction` / `_sendMessage` / `_setTopic`:
message, notice and emote wait on the connect-ready barrier and then join;
topic joins directly; any other action type rejects with an
"Unknown action type" error.  After a successful (local or network) join
the actual `say`/`notice`/`action`/`TOPIC` puts bytes on the wire, and a
join failure propagates as the rejection of the send. -/
def sendActionOutcome (s : Session) (actionType : String) (channel : Str) :
    OpOutcome :=
  if actionType = "message" ∨ actionType = "notice" ∨ actionType = "emote" then
    if s.connectPending then .waitsForConnect
    else
      match joinOutcome s channel none with
      | .resolveLocal => .sendsNetwork
      | .sendsNetwork => .sendsNetwork
      | o => o
  else if actionType = "topic" then
    match joinOutcome s channel none with
    | .resolveLocal => .sendsNetwork
    | .sendsNetwork => .sendsNetwork
    | o => o
  else .reject ("Unknown action type: " ++ actionType)

/-- A JavaScript value as far as the `getOperators` option checks observe
one: `undefined`, a string, an integer number, or anything else (objects,
non-integer numbers, booleans, null). -/
inductive JSVal where
  | undef
  | str (s : String)
  | int (n : Int)
  | other
deriving DecidableEq, Repr

/-- The `typeof v === "string"` test. -/
def JSVal.isStr : JSVal → Bool
  | .str _ => true
  | _ => false

/-- The `Number.isInteger(v) && v > 0` test. -/
def JSVal.isPositiveInt : JSVal → Bool
  | .int n => n > 0
  | _ => false

/-- The `opts` object of `getOperators`. -/
structure GetOpOpts where
  key : JSVal
  cacheDurationMs : JSVal
deriving DecidableEq, Repr

/-- The synchronous head of `getOperators`, before any network activity. -/
inductive GetOpStart where
  | throwTypeError
  | throwKeyNotString
  | throwBadCacheDuration
  | resolveCached
  | proceedJoin (key : Option String)
deriving DecidableEq, Repr

/-- The synchronous head of `BridgedClient.prototype.getOperators`, in
source order: `let key = opts.key` raises a TypeError when `opts` is
undefined or null; then the `key` type check; then the `cacheDurationMs`
checks and, when a duration is given and a cached entry exists for the
channel (`cacheWarm`), the cached resolution; otherwise the join begins. -/
def getOperatorsStart (opts : Option GetOpOpts) (cacheWarm : Bool) : GetOpStart :=
  match opts with
  | none => .throwTypeError
  | some o =>
    if ¬ o.key = JSVal.undef ∧ o.key.isStr = false then .throwKeyNotString
    else if ¬ o.cacheDurationMs = JSVal.undef then
      if o.cacheDurationMs.isPositiveInt = false then .throwBadCacheDuration
      else if cacheWarm then .resolveCached
      else .proceedJoin (match o.key with | .str s => some s | _ => none)
    else .proceedJoin (match o.key with | .str s => some s | _ => none)

/-- The settling behaviour of `getOperators`: the head decides, and on
`proceedJoin` the chain `_joinChannel → getNicks → _leaveChannel` starts,
whose first network step (the JOIN itself, or the NAMES after a local join
resolution) puts bytes on the wire; a join rejection propagates. -/
def getOperatorsOutcome (s : Session) (channel : Str) (opts : Option GetOpOpts)
    (cacheWarm : Bool) : OpOutcome :=
  match getOperatorsStart opts cacheWarm with
  | .throwTypeError => .nullClientError
  | .throwKeyNotString => .reject "key must be a string"
  | .throwBadCacheDuration => .reject "cacheDurationMs must be a positive integer"
  | .resolveCached => .resolveLocal
  | .proceedJoin k =>
    match joinOutcome s channel (k.map String.data) with
    | .resolveLocal => .sendsNetwork
    | .sendsNetwork => .sendsNetwork
    | o => o

/-- The one-shot correlator state of a pending `changeNick` operation:
whether the `nick` and `error` one-shot listeners are still attached,
whether the 10-second timer is still armed, and the settled result of the
promise, if any. -/
structure NickPendingOp where
  nickListener : Bool
  errListener : Bool
  timerArmed : Bool
  result : Option (Except String String)
deriving Repr

/-- The correlator state right after `changeNick` has sent `NICK`: both
one-shot listeners attached, the 10-second timer armed, promise pending. -/
def initNickOp : NickPendingOp :=
  { nickListener := true, errListener := true, timerArmed := true, result := none }

/-- The events a pending `changeNick` can observe: a server `nick` event
(with the old and new nick of whoever changed), an `error` event (with its
optional `command`), or the expiry of the 10-second timer. -/
inductive ClientEvent where
  | nickEv (old n : String)
  | errorEv (command : Option String)
  | timeoutEv
deriving DecidableEq, Repr

/-- The `failCodes` list of `changeNick`. -/
def nickChangeFailCodes : List String :=
  ["err_banonchan", "err_nickcollision", "err_nicknameinuse",
   "err_erroneusnickname", "err_nonicknamegiven", "err_eventnickchange",
   "err_nicktoofast", "err_unavailresource"]

/-- Settle a promise: the first settlement wins, later ones are no-ops. -/
def NickPendingOp.settle (op : NickPendingOp) (r : Except String String) :
    NickPendingOp :=
  { op with result := match op.result with | some x => some x | none => some r }

/-- One event delivered to the `changeNick` correlator, following the
source: the `nick` one-shot (detached by `once` before its body runs)
unconditionally clears the timer, removes the error listener and resolves
with the success sentence built from the event's own nicks — it never
compares them with the session's current nick; the `error` one-shot
(likewise consumed by `once` even when it declines to act) rejects only
for a command in `failCodes`, clearing the timer and removing the nick
listener; the timer rejects with the timeout message, removing both
listeners only when the client handle is still present. -/
def changeNickHandle (clientPresent : Bool) (op : NickPendingOp)
    (e : ClientEvent) : NickPendingOp :=
  match e with
  | .nickEv old n =>
    if op.nickListener then
      NickPendingOp.settle
        { op with nickListener := false, errListener := false, timerArmed := false }
        (Except.ok ("Nick changed from " ++ squote ++ old ++ squote ++ " to " ++
          squote ++ n ++ squote ++ "."))
    else op
  | .errorEv cmd =>
    if op.errListener then
      let op1 := { op with errListener := false }
      match cmd with
      | none => op1
      | some c =>
        if nickChangeFailCodes.contains c then
          NickPendingOp.settle
            { op1 with nickListener := false, timerArmed := false }
            (Except.error ("Failed to change nick: " ++ c))
        else op1
    else op
  | .timeoutEv =>
    if op.timerArmed then
      let op1 := { op with timerArmed := false }
      let op2 :=
        if clientPresent then { op1 with nickListener := false, errListener := false }
        else op1
      NickPendingOp.settle op2
        (Except.error "Timed out waiting for a response to change nick.")
    else op

/-- Follows the spec's words, for comparison with the source: the claims
describe a channel name as "a string beginning with one of `# ! & +`". -/
def spec_beginsWithChanChar : Str → Bool
  | [] => false
  | c :: _ => isChanChar c

/-- Follows the spec's words, for comparison with the source: the regular
expression `^[A-Za-z][A-Za-z0-9\]\[\^\\\{\}\-`_|]*$` that, per the claims,
every nick returned by the validator matches. -/
def spec_nickRegexMatch : Str → Bool
  | [] => false
  | c :: rest => isAsciiLetter c && rest.all legalNickChar

/-- Proof-side abbreviation: the nick after the strip step and the
letter-forcing step of `_getValidNick`, in the coercing (non-strict) mode. -/
def nickAfterLetter (nick : Str) : Str :=
  if startsWithLetter (nick.filter legalNickChar) then nick.filter legalNickChar
  else Char.ofNat 77 :: nick.filter legalNickChar

theorem getValidNick_false_eq (nick : Str) (client : Option RawClient) :
    getValidNick nick false client =
      match client with
      | none => Except.ok (nickAfterLetter nick)
      | some cli =>
        if (nickAfterLetter nick).length > cli.nicklength.getD 9 then
          Except.ok ((nickAfterLetter nick).take (cli.nicklength.getD 9))
        else Except.ok (nickAfterLetter nick) := by
  simp [getValidNick, nickAfterLetter]

theorem all_legal_filter (nick : Str) :
    (nick.filter legalNickChar).all legalNickChar = true := by
  simp [List.all_eq_true]

theorem legal_of_letter {c : Char} (h : isAsciiLetter c = true) :
    legalNickChar c = true := by
  simp [legalNickChar, h]

theorem spec_implies_all_legal {l : Str} (h : spec_nickRegexMatch l = true) :
    l.all legalNickChar = true := by
  cases l with
  | nil => simp [spec_nickRegexMatch] at h
  | cons c rest =>
    simp [spec_nickRegexMatch] at h
    simp [List.all_cons, legal_of_letter h.1, List.all_eq_true]
    exact h.2

theorem shape_force {l : Str} (h : l.all legalNickChar = true) :
    spec_nickRegexMatch (if startsWithLetter l then l else Char.ofNat 77 :: l)
      = true := by
  by_cases hs : startsWithLetter l = true
  · rw [if_pos hs]
    cases l with
    | nil => simp [startsWithLetter] at hs
    | cons c rest =>
      simp [startsWithLetter] at hs
      simp [List.all_cons] at h
      simp [spec_nickRegexMatch, hs, List.all_eq_true]
      exact fun x hx => h.2 x hx
  · rw [if_neg hs]
    simp [spec_nickRegexMatch]
    constructor
    · decide
    · simpa [List.all_eq_true] using h

theorem nickAfterLetter_shape (nick : Str) :
    spec_nickRegexMatch (nickAfterLetter nick) = true :=
  shape_force (all_legal_filter nick)

theorem shape_take {l : Str} {k : Nat} (h : spec_nickRegexMatch l = true)
    (hk : 1 ≤ k) : spec_nickRegexMatch (l.take k) = true := by
  cases l with
  | nil => simp [spec_nickRegexMatch] at h
  | cons c rest =>
    obtain ⟨j, rfl⟩ : ∃ j, k = j + 1 :=
      ⟨k - 1, (Nat.succ_pred_eq_of_pos hk).symm⟩
    simp [spec_nickRegexMatch, List.all_eq_true] at h
    simp [List.take_succ_cons, spec_nickRegexMatch, List.all_eq_true, h.1]
    exact fun x hx => h.2 x (List.take_subset _ _ hx)

theorem cons_ne_self (c : Char) (l : Str) : ¬ (c :: l) = l := by
  intro h
  have hlen := congrArg List.length h
  simp at hlen

/-- Positivity of the effective maximum nick length, given that any
server-advertised NICKLEN is positive (the RFC 1459 fallback is 9). -/
theorem maxNickLen_pos (cli : RawClient)
    (hpos : ∀ len, cli.nicklength = some len → 1 ≤ len) :
    1 ≤ cli.nicklength.getD 9 := by
  cases hnl : cli.nicklength with
  | none => simp
  | some len => simpa using hpos len hnl

/-- Every nick returned by the coercing validator consists of legal
characters only. -/
theorem nonstrict_result_all_legal (nick : Str) (client : Option RawClient)
    (hpos : ∀ cli len, client = some cli → cli.nicklength = some len → 1 ≤ len)
    (r : Str) (h : getValidNick nick false client = Except.ok r) :
    r.all legalNickChar = true := by
  rw [getValidNick_false_eq] at h
  cases client with
  | none =>
    simp at h
    exact h ▸ spec_implies_all_legal (nickAfterLetter_shape nick)
  | some cli =>
    dsimp only at h
    have hone : 1 ≤ cli.nicklength.getD 9 :=
      maxNickLen_pos cli (fun len hl => hpos cli len rfl hl)
    by_cases hlen : (nickAfterLetter nick).length > cli.nicklength.getD 9
    · rw [if_pos hlen] at h
      simp at h
      exact h ▸ spec_implies_all_legal (shape_take (nickAfterLetter_shape nick) hone)
    · rw [if_neg hlen] at h
      simp at h
      exact h ▸ spec_implies_all_legal (nickAfterLetter_shape nick)

/-- Claim C4 (amended): the coercing validator always returns a nick
matching `^[A-Za-z][A-Za-z0-9\]\[\^\\\{\}\-`_|]*$`, and when a raw client
handle is live the result is at most the advertised NICKLEN long — with 9,
the RFC 1459 default, taking NICKLEN's place when the client advertises
none.  Any advertised NICKLEN is assumed positive. -/
theorem getValidNick_nonstrict_shape (nick : Str) (client : Option RawClient)
    (hpos : ∀ cli len, client = some cli → cli.nicklength = some len → 1 ≤ len) :
    ∃ r, getValidNick nick false client = Except.ok r ∧
      spec_nickRegexMatch r = true ∧
      ∀ cli, client = some cli → r.length ≤ cli.nicklength.getD 9 := by
  rw [getValidNick_false_eq]
  cases client with
  | none =>
    exact ⟨nickAfterLetter nick, rfl, nickAfterLetter_shape nick,
      by intro cli h; cases h⟩
  | some cli =>
    dsimp only
    have hone : 1 ≤ cli.nicklength.getD 9 :=
      maxNickLen_pos cli (fun len hl => hpos cli len rfl hl)
    by_cases hlen : (nickAfterLetter nick).length > cli.nicklength.getD 9
    · rw [if_pos hlen]
      refine ⟨_, rfl, shape_take (nickAfterLetter_shape nick) hone, ?_⟩
      intro cli2 h2
      injection h2 with h2
      subst h2
      simp [List.length_take]
    · rw [if_neg hlen]
      refine ⟨_, rfl, nickAfterLetter_shape nick, ?_⟩
      intro cli2 h2
      injection h2 with h2
      subst h2
      omega

/-- Witness for `getValidNick_nonstrict_shape` at the live-client input
`"bob"` with advertised NICKLEN 9. -/
theorem getValidNick_nonstrict_shape_witness :
    ∃ r, getValidNick ['b', 'o', 'b'] false
        (some { chans := [], nicklength := some 9 }) = Except.ok r ∧
      spec_nickRegexMatch r = true ∧
      ∀ cli, (some { chans := [], nicklength := some 9 } : Option RawClient)
        = some cli → r.length ≤ cli.nicklength.getD 9 :=
  getValidNick_nonstrict_shape ['b', 'o', 'b'] _
    (fun cli len h1 h2 => by cases h1; simp at h2; omega)

/-- Counterexample to claim C4 as stated: with a live client that
advertises no NICKLEN, the validator does apply a length check — the
all-legal 12-character input `"alexandermax"` comes back truncated to the
9-character `"alexander"` instead of unchanged. -/
theorem getValidNick_default9_counterexample :
    getValidNick ['a', 'l', 'e', 'x', 'a', 'n', 'd', 'e', 'r', 'm', 'a', 'x']
        false (some { chans := [], nicklength := none }) =
      Except.ok ['a', 'l', 'e', 'x', 'a', 'n', 'd', 'e', 'r'] ∧
    ¬ (['a', 'l', 'e', 'x', 'a', 'n', 'd', 'e', 'r'] : Str) =
      ['a', 'l', 'e', 'x', 'a', 'n', 'd', 'e', 'r', 'm', 'a', 'x'] := by
  constructor
  · rfl
  · decide

/-- When the strip step changes the input, the coerced result can never
equal the input: the input contains an illegal character, the result none. -/
theorem nonstrict_ne_input_of_stripchange (nick : Str) (client : Option RawClient)
    (hpos : ∀ cli len, client = some cli → cli.nicklength = some len → 1 ≤ len)
    (hA : ¬ nick.filter legalNickChar = nick)
    (r : Str) (h : getValidNick nick false client = Except.ok r) : ¬ r = nick := by
  intro hr
  have hall := nonstrict_result_all_legal nick client hpos r h
  rw [hr] at hall
  exact hA (List.filter_eq_self.mpr (by simpa [List.all_eq_true] using hall))

/-- When the input survives the strip step but fails the leading-letter
test, the coerced result can never equal the input: the result begins with
`M`, a letter, while the input does not begin with a letter. -/
theorem nonstrict_ne_input_of_letterfail (nick : Str) (client : Option RawClient)
    (hpos : ∀ cli len, client = some cli → cli.nicklength = some len → 1 ≤ len)
    (hA : nick.filter legalNickChar = nick)
    (hB : startsWithLetter nick = false)
    (r : Str) (h : getValidNick nick false client = Except.ok r) : ¬ r = nick := by
  have hNAL : nickAfterLetter nick = Char.ofNat 77 :: nick := by
    simp [nickAfterLetter, hA, hB]
  rw [getValidNick_false_eq] at h
  cases client with
  | none =>
    simp [hNAL] at h
    intro hr
    rw [hr] at h
    exact cons_ne_self _ _ h
  | some cli =>
    dsimp only at h
    rw [hNAL] at h
    have hone : 1 ≤ cli.nicklength.getD 9 :=
      maxNickLen_pos cli (fun len hl => hpos cli len rfl hl)
    by_cases hlen : (Char.ofNat 77 :: nick).length > cli.nicklength.getD 9
    · rw [if_pos hlen] at h
      simp at h
      intro hr
      obtain ⟨j, hj⟩ : ∃ j, cli.nicklength.getD 9 = j + 1 :=
        ⟨_, (Nat.succ_pred_eq_of_pos hone).symm⟩
      rw [hj, List.take_succ_cons] at h
      rw [hr] at h
      rw [← h] at hB
      have hs : startsWithLetter (Char.ofNat 77 :: List.take j nick) = true := by
        show isAsciiLetter (Char.ofNat 77) = true
        decide
      rw [hs] at hB
      cases hB
    · rw [if_neg hlen] at h
      simp at h
      intro hr
      rw [hr] at h
      exact cons_ne_self _ _ h

/-- Claim C5 (amended): in strict mode the validator succeeds exactly on
inputs the coercing mode returns unchanged (and then returns the input
itself); whenever the coercing mode alters its input, strict mode raises.
Any advertised NICKLEN is assumed positive. -/
theorem getValidNick_strict_iff_nonstrict (nick : Str) (client : Option RawClient)
    (hpos : ∀ cli len, client = some cli → cli.nicklength = some len → 1 ≤ len) :
    (∀ r, getValidNick nick true client = Except.ok r → r = nick) ∧
    (getValidNick nick true client = Except.ok nick ↔
      getValidNick nick false client = Except.ok nick) ∧
    (∀ r, getValidNick nick false client = Except.ok r → ¬ r = nick →
      ∃ msg, getValidNick nick true client = Except.error msg) := by
  by_cases hA : nick.filter legalNickChar = nick
  · by_cases hB : startsWithLetter nick = true
    · cases client with
      | none =>
        have hT : getValidNick nick true none = Except.ok nick := by
          simp [getValidNick, hA, hB]
        have hF : getValidNick nick false none = Except.ok nick := by
          simp [getValidNick, hA, hB]
        refine ⟨?_, by rw [hT, hF], ?_⟩
        · intro r hr
          rw [hT] at hr
          injection hr with h2
          exact h2.symm
        · intro r hrF hneq
          rw [hF] at hrF
          injection hrF with h2
          exact absurd h2.symm hneq
      | some cli =>
        by_cases hL : nick.length > cli.nicklength.getD 9
        · have hT : getValidNick nick true (some cli) =
              Except.error ("Nick " ++ squote ++ String.mk nick ++ squote ++
                " is too long. (Max: " ++ toString (cli.nicklength.getD 9) ++ ")") := by
            simp [getValidNick, hA, hB, hL]
          have hF : getValidNick nick false (some cli) =
              Except.ok (nick.take (cli.nicklength.getD 9)) := by
            simp [getValidNick, hA, hB, hL]
          have hne : ¬ nick.take (cli.nicklength.getD 9) = nick := by
            intro h
            have hlen2 := congrArg List.length h
            rw [List.length_take] at hlen2
            have hmin : min (cli.nicklength.getD 9) nick.length =
                cli.nicklength.getD 9 := Nat.min_eq_left (Nat.le_of_lt hL)
            rw [hmin] at hlen2
            omega
          refine ⟨?_, ?_, ?_⟩
          · intro r hr
            rw [hT] at hr
            exact Except.noConfusion hr
          · constructor
            · intro h
              rw [hT] at h
              exact Except.noConfusion h
            · intro h
              rw [hF] at h
              injection h with h2
              exact absurd h2 hne
          · intro r hrF hneq
            exact ⟨_, hT⟩
        · have hT : getValidNick nick true (some cli) = Except.ok nick := by
            simp [getValidNick, hA, hB, hL]
          have hF : getValidNick nick false (some cli) = Except.ok nick := by
            simp [getValidNick, hA, hB, hL]
          refine ⟨?_, by rw [hT, hF], ?_⟩
          · intro r hr
            rw [hT] at hr
            injection hr with h2
            exact h2.symm
          · intro r hrF hneq
            rw [hF] at hrF
            injection hrF with h2
            exact absurd h2.symm hneq
    · have hBf : startsWithLetter nick = false := by
        cases hsw : startsWithLetter nick
        · rfl
        · exact absurd hsw hB
      have hT : getValidNick nick true client =
          Except.error ("Nick " ++ squote ++ String.mk nick ++ squote ++
            " must start with a letter.") := by
        simp [getValidNick, hA, hBf]
      have hne := nonstrict_ne_input_of_letterfail nick client hpos hA hBf
      refine ⟨?_, ?_, ?_⟩
      · intro r hr
        rw [hT] at hr
        exact Except.noConfusion hr
      · constructor
        · intro h
          rw [hT] at h
          exact Except.noConfusion h
        · intro h
          exact absurd rfl (hne nick h)
      · intro r hrF hneq
        exact ⟨_, hT⟩
  · have hT : getValidNick nick true client =
        Except.error ("Nick " ++ squote ++ String.mk nick ++ squote ++
          " contains illegal characters.") := by
      simp [getValidNick, hA]
    have hne := nonstrict_ne_input_of_stripchange nick client hpos hA
    refine ⟨?_, ?_, ?_⟩
    · intro r hr
      rw [hT] at hr
      exact Except.noConfusion hr
    · constructor
      · intro h
        rw [hT] at h
        exact Except.noConfusion h
      · intro h
        exact absurd rfl (hne nick h)
    · intro r hrF hneq
      exact ⟨_, hT⟩

/-- Witness for `getValidNick_strict_iff_nonstrict` at the already-valid
nick `"ab"` with no live client. -/
theorem getValidNick_strict_iff_nonstrict_witness :
    getValidNick ['a', 'b'] true none = Except.ok ['a', 'b'] :=
  ((getValidNick_strict_iff_nonstrict ['a', 'b'] none
      (fun _ _ h1 _ => Option.noConfusion h1)).2.1).mpr (by rfl)

/-- Counterexample to claim C5 as stated: with a live client advertising
the degenerate NICKLEN 0, the empty nick is returned unchanged by the
coercing mode (strip to empty, prepend `M`, truncate back to empty) while
the strict mode raises — so strict does not succeed exactly on the inputs
the coercing mode leaves unchanged. -/
theorem getValidNick_strict_counterexample :
    getValidNick [] false (some { chans := [], nicklength := some 0 }) =
      Except.ok [] ∧
    getValidNick [] true (some { chans := [], nicklength := some 0 }) =
      Except.error ("Nick " ++ squote ++ squote ++ " must start with a letter.") := by
  constructor
  · rfl
  · rfl

/-- A server descriptor fixture: nothing excluded, no membership
mirroring, a 300-second idle timeout. -/
def serverFix : ServerCfg :=
  { excluded := fun _ => false, mirrorInitial := false, idleTimeout := 300 }

/-- A live connected session fixture: empty channel list, raw client
joined to nothing, connection instance alive, connect barrier settled. -/
def sLive : Session :=
  { server := serverFix, isBot := false, nick := ['a', 'l', 'i', 'c', 'e'],
    chanList := [], unsafeClient := some { chans := [], nicklength := none },
    inst := some { dead := false }, connectPending := false,
    explicitDisconnect := false }

/-- Claim C1 (amended): while a raw client handle is live, a join whose
channel contains none of `#`, `!`, `&`, `+` resolves immediately with a
room descriptor for that channel (either because the raw client is already
in it or as a private-message target), sends no JOIN, and leaves
`chanList` unchanged. -/
theorem joinChannel_pm_resolves (s : Session) (cli : RawClient) (channel : Str)
    (key : Option Str) (hc : s.unsafeClient = some cli)
    (hpm : channel.any isChanChar = false) :
    ((joinChannelStep s channel key).2 = JoinDecision.resolveExisting channel ∨
      (joinChannelStep s channel key).2 = JoinDecision.resolvePM channel) ∧
    sendsJoin (joinChannelStep s channel key).2 = false ∧
    (joinChannelStep s channel key).1.chanList = s.chanList := by
  by_cases hmem : channel ∈ cli.chans
  · have hd : joinChannelDecision s channel key = .resolveExisting channel := by
      unfold joinChannelDecision
      rw [hc]
      dsimp only
      rw [if_pos hmem]
    simp [joinChannelStep, hd, sendsJoin]
  · have hd : joinChannelDecision s channel key = .resolvePM channel := by
      unfold joinChannelDecision
      rw [hc]
      dsimp only
      rw [if_neg hmem, if_pos hpm]
    simp [joinChannelStep, hd, sendsJoin]

/-- Witness for `joinChannel_pm_resolves`: joining the direct-message
target `"bob"` on the live session fixture. -/
theorem joinChannel_pm_resolves_witness :
    (((joinChannelStep sLive ['b', 'o', 'b'] none).2 =
        JoinDecision.resolveExisting ['b', 'o', 'b'] ∨
      (joinChannelStep sLive ['b', 'o', 'b'] none).2 =
        JoinDecision.resolvePM ['b', 'o', 'b']) ∧
    sendsJoin (joinChannelStep sLive ['b', 'o', 'b'] none).2 = false ∧
    (joinChannelStep sLive ['b', 'o', 'b'] none).1.chanList = sLive.chanList) :=
  joinChannel_pm_resolves sLive { chans := [], nicklength := none }
    ['b', 'o', 'b'] none rfl (by decide)

/-- Counterexample to claim C1 as stated: the source tests `/[#!&+]/`
without anchoring, so the channel `"a#"` — which does not BEGIN with any
of `#`, `!`, `&`, `+` but contains `#` — is not treated as a
direct-message target: a JOIN is issued and `chanList` grows. -/
theorem joinChannel_pm_counterexample :
    (joinChannelStep sLive ['a', '#'] none).2 =
      JoinDecision.proceedJoin ['a', '#'] none ∧
    sendsJoin (joinChannelStep sLive ['a', '#'] none).2 = true ∧
    (joinChannelStep sLive ['a', '#'] none).1.chanList = [['a', '#']] ∧
    spec_beginsWithChanChar ['a', '#'] = false := by
  refine ⟨by rfl, by rfl, by rfl, by decide⟩

/-- Claim C2 (amended): when the 15-second round timer fires while the
operation is pending AND the channel is still wanted (in `chanList`):
if the raw client's channel set contains the channel the operation
resolves without a second JOIN; else with the attempt count at 5 it
rejects; else the join is retried with the attempt count incremented —
and a retry never pushes the attempt count beyond 5, so at most 5 rounds
occur. -/
theorem joinTimer_policy (s : Session) (cli : RawClient) (channel : Str)
    (attemptCount : Nat) (hc : s.unsafeClient = some cli)
    (hw : channel ∈ s.chanList) :
    (channel ∈ cli.chans →
      joinTimerStep s channel true attemptCount = .resolveJoined channel) ∧
    (channel ∉ cli.chans → attemptCount ≥ 5 →
      joinTimerStep s channel true attemptCount = .rejectTries) ∧
    (channel ∉ cli.chans → attemptCount < 5 →
      joinTimerStep s channel true attemptCount = .retry (attemptCount + 1)) ∧
    (∀ a, joinTimerStep s channel true attemptCount = .retry a → a ≤ 5) ∧
    JOIN_TIMEOUT_MS = 15000 := by
  unfold joinTimerStep
  rw [hc]
  dsimp only
  rw [if_pos (show (true = true) ∧ channel ∈ s.chanList from ⟨rfl, hw⟩)]
  refine ⟨fun hj => by rw [if_pos hj], ?_, ?_, ?_, rfl⟩
  · intro hj h5
    rw [if_neg hj, if_pos h5]
  · intro hj h5
    rw [if_neg hj, if_neg (by omega)]
  · intro a ha
    by_cases hj : channel ∈ cli.chans
    · rw [if_pos hj] at ha
      exact absurd ha (by simp)
    · rw [if_neg hj] at ha
      by_cases h5 : attemptCount ≥ 5
      · rw [if_pos h5] at ha
        exact absurd ha (by simp)
      · rw [if_neg h5] at ha
        injection ha with ha2
        omega

/-- A session fixture mid-join: the join for `"#room"` is pending, the
channel is still wanted in `chanList`, and the raw client has not joined
it yet. -/
def sJoining : Session :=
  { server := serverFix, isBot := false, nick := ['a', 'l', 'i', 'c', 'e'],
    chanList := [['#', 'r', 'o', 'o', 'm']],
    unsafeClient := some { chans := [], nicklength := none },
    inst := some { dead := false }, connectPending := false,
    explicitDisconnect := false }

/-- Witness for `joinTimer_policy`: on the mid-join fixture, a round that
fires with the channel still wanted, the raw client still not joined and
the attempt count at 1 retries with attempt count 2. -/
theorem joinTimer_policy_witness :
    joinTimerStep sJoining ['#', 'r', 'o', 'o', 'm'] true 1 =
      JoinTimerAction.retry 2 :=
  (joinTimer_policy sJoining { chans := [], nicklength := none }
      ['#', 'r', 'o', 'o', 'm'] 1 rfl (by decide)).2.2.1 (by decide) (by decide)

/-- Counterexample to claim C2 as stated: the timer body also requires the
channel to still be in `chanList`.  Here the operation is pending and the
raw client's channel set contains `"#room"`, but the channel has been
removed from `chanList` (for example by a concurrent leave), so the timer
does nothing instead of resolving. -/
theorem joinTimer_counterexample :
    joinTimerStep
      { server := serverFix, isBot := false, nick := ['a', 'l', 'i', 'c', 'e'],
        chanList := [],
        unsafeClient := some { chans := [['#', 'r', 'o', 'o', 'm']], nicklength := none },
        inst := some { dead := false }, connectPending := false,
        explicitDisconnect := false }
      ['#', 'r', 'o', 'o', 'm'] true 1 = JoinTimerAction.nothing ∧
    ¬ JoinTimerAction.nothing =
      JoinTimerAction.resolveJoined ['#', 'r', 'o', 'o', 'm'] := by
  refine ⟨by rfl, by decide⟩

/-- The invariant actually maintained on `chanList`: every element
contains at least one of `#`, `!`, `&`, `+` (the containment form of the
source's `/[#!&+]/` test). -/
def chanListContainsInv (s : Session) : Prop :=
  ∀ x ∈ s.chanList, x.any isChanChar = true

theorem mem_addChannel {l : List Str} {c x : Str} (h : x ∈ addChannel l c) :
    x ∈ l ∨ x = c := by
  unfold addChannel at h
  by_cases hc : c ∈ l
  · rw [if_pos hc] at h
    exact Or.inl h
  · rw [if_neg hc] at h
    rcases List.mem_append.mp h with h2 | h2
    · exact Or.inl h2
    · exact Or.inr (List.mem_singleton.mp h2)

/-- Claim C6 (amended): every element of `chanList` contains at least one
of `#`, `!`, `&`, `+`, and both channel-mutating operations (the
synchronous part of a join, and a leave) preserve this invariant. -/
theorem chanList_invariant_preserved (s : Session) (channel : Str)
    (key : Option Str) (hinv : chanListContainsInv s) :
    chanListContainsInv (joinChannelStep s channel key).1 ∧
    chanListContainsInv (leaveChannelStep s channel).1 := by
  constructor
  · unfold joinChannelStep
    cases hd : joinChannelDecision s channel key with
    | proceedJoin c k =>
      have hcontains : channel.any isChanChar = true := by
        unfold joinChannelDecision at hd
        cases hcl : s.unsafeClient with
        | none =>
          rw [hcl] at hd
          dsimp only at hd
          by_cases hp : s.connectPending = true
          · rw [if_pos hp] at hd
            exact JoinDecision.noConfusion hd
          · rw [if_neg hp] at hd
            exact JoinDecision.noConfusion hd
        | some cli =>
          rw [hcl] at hd
          dsimp only at hd
          by_cases hmem : channel ∈ cli.chans
          · rw [if_pos hmem] at hd
            exact JoinDecision.noConfusion hd
          · rw [if_neg hmem] at hd
            by_cases hpm : channel.any isChanChar = false
            · rw [if_pos hpm] at hd
              exact JoinDecision.noConfusion hd
            · cases hval : channel.any isChanChar
              · exact absurd hval hpm
              · rfl
      dsimp only
      intro x hx
      rcases mem_addChannel hx with h2 | h2
      · exact hinv x h2
      · rw [h2]
        exact hcontains
    | waitForConnect => exact hinv
    | rejectNoClient => exact hinv
    | resolveExisting c => exact hinv
    | resolvePM c => exact hinv
    | rejectExcluded c => exact hinv
  · unfold leaveChannelStep
    by_cases h1 : instDead s = true
    · rw [if_pos h1]
      exact hinv
    · rw [if_neg h1]
      by_cases h2 : startsWithHash channel = false
      · rw [if_pos h2]
        exact hinv
      · rw [if_neg h2]
        by_cases h3 : channel ∉ s.chanList
        · rw [if_pos h3]
          exact hinv
        · rw [if_neg h3]
          intro x hx
          dsimp only at hx
          unfold removeChannel at hx
          by_cases h4 : channel ∈ s.chanList
          · rw [if_pos h4] at hx
            exact hinv x (List.erase_subset _ _ hx)
          · rw [if_neg h4] at hx
            exact hinv x hx

/-- Witness for `chanList_invariant_preserved` on the live fixture and the
channel `"#room"`. -/
theorem chanList_invariant_preserved_witness :
    chanListContainsInv
      (joinChannelStep sLive ['#', 'r', 'o', 'o', 'm'] none).1 ∧
    chanListContainsInv (leaveChannelStep sLive ['#', 'r', 'o', 'o', 'm']).1 :=
  chanList_invariant_preserved sLive ['#', 'r', 'o', 'o', 'm'] none
    (by intro x hx; cases hx)

/-- Counterexample to claim C6 as stated: starting from a state whose
`chanList` is empty (so the claimed invariant holds), joining `"x&y"` —
accepted because the unanchored `/[#!&+]/` test only checks containment —
leaves `chanList` holding a name that does not begin with `#`, `!`, `&`
or `+`. -/
theorem chanList_invariant_counterexample :
    (joinChannelStep sLive ['x', '&', 'y'] none).1.chanList =
      [['x', '&', 'y']] ∧
    spec_beginsWithChanChar ['x', '&', 'y'] = false := by
  refine ⟨by rfl, by decide⟩

theorem leave_noop_dead (s : Session) (channel : Str) (h1 : instDead s = true) :
    leaveChannelStep s channel = (s, false) := by
  unfold leaveChannelStep
  rw [if_pos h1]

theorem leave_noop_pm (s : Session) (channel : Str)
    (h2 : startsWithHash channel = false) :
    leaveChannelStep s channel = (s, false) := by
  unfold leaveChannelStep
  by_cases h1 : instDead s = true
  · rw [if_pos h1]
  · rw [if_neg h1, if_pos h2]

theorem leave_noop_notmem (s : Session) (channel : Str)
    (h3 : channel ∉ s.chanList) :
    leaveChannelStep s channel = (s, false) := by
  unfold leaveChannelStep
  by_cases h1 : instDead s = true
  · rw [if_pos h1]
  · rw [if_neg h1]
    by_cases h2 : startsWithHash channel = false
    · rw [if_pos h2]
    · rw [if_neg h2, if_pos h3]

theorem leave_part (s : Session) (channel : Str) (h1 : instDead s = false)
    (h2 : startsWithHash channel = true) (h3 : channel ∈ s.chanList) :
    leaveChannelStep s channel =
      ({ s with chanList := s.chanList.erase channel }, true) := by
  unfold leaveChannelStep
  rw [if_neg (by simp [h1]), if_neg (by simp [h2]),
    if_neg (fun hn => hn h3)]
  simp [removeChannel, h3]

/-- Claim C7 (amended): a leave resolves as a no-op when the session is
disconnected, when the channel does not begin with `#` (only `#`-prefixed
names are parted; `!`, `&`, `+` names are treated like direct-message
targets here), or when the channel is not in `chanList`; otherwise the
channel is removed from `chanList` and only then the PART is sent.  On a
duplicate-free `chanList`, leaving twice equals leaving once: the second
leave is a no-op. -/
theorem leaveChannel_policy (s : Session) (channel : Str) :
    (instDead s = true → leaveChannelStep s channel = (s, false)) ∧
    (startsWithHash channel = false → leaveChannelStep s channel = (s, false)) ∧
    (channel ∉ s.chanList → leaveChannelStep s channel = (s, false)) ∧
    (instDead s = false → startsWithHash channel = true →
      channel ∈ s.chanList →
      leaveChannelStep s channel =
        ({ s with chanList := s.chanList.erase channel }, true)) ∧
    (s.chanList.Nodup →
      leaveChannelStep (leaveChannelStep s channel).1 channel =
        ((leaveChannelStep s channel).1, false)) := by
  refine ⟨leave_noop_dead s channel, leave_noop_pm s channel,
    leave_noop_notmem s channel, leave_part s channel, ?_⟩
  intro hnd
  by_cases h1 : instDead s = true
  · rw [leave_noop_dead s channel h1]
    exact leave_noop_dead s channel h1
  · by_cases h2 : startsWithHash channel = true
    · by_cases h3 : channel ∈ s.chanList
      · rw [leave_part s channel (by simpa using h1) h2 h3]
        apply leave_noop_notmem
        exact hnd.not_mem_erase
      · rw [leave_noop_notmem s channel h3]
        exact leave_noop_notmem s channel h3
    · have h2f : startsWithHash channel = false := by simpa using h2
      rw [leave_noop_pm s channel h2f]
      exact leave_noop_pm s channel h2f

/-- A live session fixture joined (by its own bookkeeping and by the raw
client) to `"#chan"`. -/
def sInChan : Session :=
  { server := serverFix, isBot := false, nick := ['a', 'l', 'i', 'c', 'e'],
    chanList := [['#', 'c', 'h', 'a', 'n']],
    unsafeClient := some { chans := [['#', 'c', 'h', 'a', 'n']], nicklength := none },
    inst := some { dead := false }, connectPending := false,
    explicitDisconnect := false }

/-- Witness for `leaveChannel_policy`: on the joined fixture, leaving
`"#chan"` twice equals leaving it once. -/
theorem leaveChannel_policy_witness :
    leaveChannelStep (leaveChannelStep sInChan ['#', 'c', 'h', 'a', 'n']).1
        ['#', 'c', 'h', 'a', 'n'] =
      ((leaveChannelStep sInChan ['#', 'c', 'h', 'a', 'n']).1, false) :=
  (leaveChannel_policy sInChan ['#', 'c', 'h', 'a', 'n']).2.2.2.2 (by decide)

/-- Counterexample to claim C7 as stated: `"&ops"` begins with `&`, is in
`chanList`, and the session is connected, so by the claim it should be
removed and parted — but the source only parts `#`-prefixed channels and
resolves this call as a no-op. -/
theorem leaveChannel_amp_counterexample :
    (leaveChannelStep
        { server := serverFix, isBot := false, nick := ['a', 'l', 'i', 'c', 'e'],
          chanList := [['&', 'o', 'p', 's']],
          unsafeClient := some { chans := [['&', 'o', 'p', 's']], nicklength := none },
          inst := some { dead := false }, connectPending := false,
          explicitDisconnect := false }
        ['&', 'o', 'p', 's']).1.chanList = [['&', 'o', 'p', 's']] ∧
    (leaveChannelStep
        { server := serverFix, isBot := false, nick := ['a', 'l', 'i', 'c', 'e'],
          chanList := [['&', 'o', 'p', 's']],
          unsafeClient := some { chans := [['&', 'o', 'p', 's']], nicklength := none },
          inst := some { dead := false }, connectPending := false,
          explicitDisconnect := false }
        ['&', 'o', 'p', 's']).2 = false ∧
    spec_beginsWithChanChar ['&', 'o', 'p', 's'] = true := by
  refine ⟨by rfl, by rfl, by decide⟩

/-- Claim C8 (confirmed): when the armed idle timer expires, nothing
happens if the server mirrors matrix membership for phase "initial";
otherwise nothing happens for the bot session; otherwise `disconnect` is
called exactly once, with reason `"Idle timeout reached: Ns"` for the
configured idle timeout of N seconds. -/
theorem keepAlive_expiry_policy (s : Session) :
    (s.server.mirrorInitial = true → keepAliveExpire s = (s, none)) ∧
    (s.server.mirrorInitial = false → s.isBot = true →
      keepAliveExpire s = (s, none)) ∧
    (s.server.mirrorInitial = false → s.isBot = false →
      keepAliveExpire s =
        ((disconnectStep s).1,
          some ("Idle timeout reached: " ++ toString s.server.idleTimeout ++ "s")) ∧
      (keepAliveExpire s).1.explicitDisconnect = true) := by
  refine ⟨?_, ?_, ?_⟩
  · intro h1
    unfold keepAliveExpire
    rw [if_pos h1]
  · intro h1 h2
    unfold keepAliveExpire
    rw [if_neg (by simp [h1]), if_pos h2]
  · intro h1 h2
    constructor
    · unfold keepAliveExpire
      rw [if_neg (by simp [h1]), if_neg (by simp [h2])]
    · unfold keepAliveExpire
      rw [if_neg (by simp [h1]), if_neg (by simp [h2])]
      rfl

/-- Witness for `keepAlive_expiry_policy`: the live fixture (no
mirroring, not the bot, 300-second idle timeout) disconnects with reason
`"Idle timeout reached: 300s"`. -/
theorem keepAlive_expiry_policy_witness :
    keepAliveExpire sLive =
      ((disconnectStep sLive).1, some "Idle timeout reached: 300s") ∧
    (keepAliveExpire sLive).1.explicitDisconnect = true :=
  ((keepAlive_expiry_policy sLive).2.2 rfl rfl)

/-- Claim C3 (amended): for the correlator state right after `NICK` is
sent, with the client handle present: ANY server `nick` event — the
source never compares it with the session's own pending transition —
settles the operation with the success sentence naming the event's nicks
and removes both one-shot listeners and the timer; the first `error` event
whose command is in the fail-code list settles it with a rejection and
removes both listeners and the timer; the 10-second timeout settles it
with a rejection and removes both listeners; and once settled, no later
event can change the result. -/
theorem changeNick_correlator :
    (∀ old n, changeNickHandle true initNickOp (ClientEvent.nickEv old n) =
      { nickListener := false, errListener := false, timerArmed := false,
        result := some (Except.ok ("Nick changed from " ++ squote ++ old ++
          squote ++ " to " ++ squote ++ n ++ squote ++ ".")) }) ∧
    (∀ c, nickChangeFailCodes.contains c = true →
      changeNickHandle true initNickOp (ClientEvent.errorEv (some c)) =
      { nickListener := false, errListener := false, timerArmed := false,
        result := some (Except.error ("Failed to change nick: " ++ c)) }) ∧
    (changeNickHandle true initNickOp ClientEvent.timeoutEv =
      { nickListener := false, errListener := false, timerArmed := false,
        result :=
          some (Except.error "Timed out waiting for a response to change nick.") }) ∧
    (∀ cp op e r, op.result = some r →
      (changeNickHandle cp op e).result = some r) ∧
    NICK_DELAY_TIMER_MS = 10000 := by
  refine ⟨?_, ?_, ?_, ?_, rfl⟩
  · intro old n
    rfl
  · intro c hc
    simp [changeNickHandle, initNickOp, NickPendingOp.settle, hc]
    simpa using hc
  · rfl
  · intro cp op e r hr
    cases e with
    | nickEv o2 n2 =>
      by_cases hl : op.nickListener = true
      · simp [changeNickHandle, hl, NickPendingOp.settle, hr]
      · simp [changeNickHandle, hl, hr]
    | errorEv cmd =>
      by_cases hl : op.errListener = true
      · cases cmd with
        | none => simp [changeNickHandle, hl, hr]
        | some c =>
          by_cases hfc : nickChangeFailCodes.contains c = true
          · have hm : c ∈ nickChangeFailCodes := by simpa using hfc
            simp [changeNickHandle, hl, hm, NickPendingOp.settle, hr]
          · have hm : c ∉ nickChangeFailCodes := by simpa using hfc
            simp [changeNickHandle, hl, hm, NickPendingOp.settle, hr]
      · simp [changeNickHandle, hl, hr]
    | timeoutEv =>
      by_cases ht : op.timerArmed = true
      · by_cases hcp : cp = true <;>
          simp [changeNickHandle, ht, hcp, NickPendingOp.settle, hr]
      · simp [changeNickHandle, ht, hr]

/-- Witness for `changeNick_correlator`: the fail code
`"err_nicknameinuse"` rejects and detaches everything. -/
theorem changeNick_correlator_witness :
    changeNickHandle true initNickOp
        (ClientEvent.errorEv (some "err_nicknameinuse")) =
      { nickListener := false, errListener := false, timerArmed := false,
        result :=
          some (Except.error ("Failed to change nick: " ++ "err_nicknameinuse")) } :=
  changeNick_correlator.2.1 "err_nicknameinuse" (by decide)

/-- Counterexample to claim C3 as stated: a `nick` event that does not
match the session's pending old-to-new transition (here an event for user
`"bob"`, while the session's nick is `"alice"`) still settles the pending
operation with a success sentence, because the source's `nick` one-shot
never checks the event against the expected transition. -/
theorem changeNick_nonmatching_counterexample :
    (changeNickHandle true initNickOp
        (ClientEvent.nickEv "bob" "carol")).result =
      some (Except.ok ("Nick changed from " ++ squote ++ "bob" ++ squote ++
        " to " ++ squote ++ "carol" ++ squote ++ ".")) ∧
    ¬ ("bob" = "alice") := by
  refine ⟨by rfl, by decide⟩

/-- An outcome compatible with a dead session: a local resolution, a
rejection with a sentinel message, or a TypeError from the null client
handle — in particular, never network traffic and never an unbounded wait. -/
def benignOutcome (o : OpOutcome) : Prop :=
  o = OpOutcome.resolveLocal ∨ (∃ m, o = OpOutcome.reject m) ∨
    o = OpOutcome.nullClientError

theorem benignOutcome_no_wire {o : OpOutcome} (h : benignOutcome o) :
    ¬ o = OpOutcome.sendsNetwork ∧ ¬ o = OpOutcome.waitsForConnect := by
  rcases h with h | ⟨m, h⟩ | h <;> rw [h] <;> exact ⟨by simp, by simp⟩

theorem killCompleted_unsafeClient (s : Session) :
    (killCompleted s).unsafeClient = none := by
  simp [killCompleted, killStep, disconnectStep]

theorem killCompleted_instDead (s : Session) :
    instDead (killCompleted s) = true := by
  unfold killCompleted killStep disconnectStep instDead
  cases s.inst <;> rfl

theorem killCompleted_connectPending (s : Session) :
    (killCompleted s).connectPending = s.connectPending := by
  rfl

theorem killed_join_reject (s : Session) (hcp : s.connectPending = false)
    (channel : Str) (key : Option Str) :
    joinOutcome (killCompleted s) channel key = OpOutcome.reject "No client" := by
  unfold joinOutcome joinChannelDecision
  rw [killCompleted_unsafeClient]
  dsimp only
  rw [if_neg (by rw [killCompleted_connectPending, hcp]; exact Bool.false_ne_true)]

/-- Claim C9 (amended): once `kill` and the disconnect it delegates to
have completed (on a session whose connect barrier has settled), every
public operation settles without putting bytes on the wire: joins reject
"No client"; leaves, kicks and disconnects resolve as no-ops; nick changes
resolve an "already" no-op or reject (validation or "not connected");
sends and operator queries reject or resolve locally; and `whois` and
`getNicks` reject with a TypeError from the null client handle rather
than a lifecycle sentinel. -/
theorem killed_ops_benign (s : Session) (hcp : s.connectPending = false)
    (channel newNick : Str) (key : Option Str) (strict : Bool)
    (actionType : String) (opts : Option GetOpOpts) (cacheWarm : Bool) :
    joinOutcome (killCompleted s) channel key = OpOutcome.reject "No client" ∧
    leaveOutcome (killCompleted s) channel = OpOutcome.resolveLocal ∧
    kickOutcome (killCompleted s) channel = OpOutcome.resolveLocal ∧
    whoisOutcome (killCompleted s) = OpOutcome.nullClientError ∧
    getNicksOutcome (killCompleted s) = OpOutcome.nullClientError ∧
    disconnectOutcome (killCompleted s) = OpOutcome.resolveLocal ∧
    benignOutcome (changeNickOutcome (killCompleted s) newNick strict) ∧
    benignOutcome (sendActionOutcome (killCompleted s) actionType channel) ∧
    benignOutcome (getOperatorsOutcome (killCompleted s) channel opts cacheWarm) := by
  have hnc := killCompleted_unsafeClient s
  have hdead := killCompleted_instDead s
  have hjoin := killed_join_reject s hcp channel key
  have hjoinN := killed_join_reject s hcp channel none
  refine ⟨hjoin, ?_, ?_, ?_, ?_, ?_, ?_, ?_, ?_⟩
  · unfold leaveOutcome leaveChannelStep
    rw [if_pos hdead]
    rfl
  · unfold kickOutcome
    rw [if_pos hdead]
  · unfold whoisOutcome
    rw [hnc]
  · unfold getNicksOutcome
    rw [hnc]
  · unfold disconnectOutcome disconnectStep
    rw [hdead]
    rfl
  · unfold changeNickOutcome
    rw [hnc]
    cases hv : getValidNick newNick strict none with
    | error e => exact Or.inr (Or.inl ⟨e, rfl⟩)
    | ok v =>
      dsimp only
      by_cases heq : v = (killCompleted s).nick
      · rw [if_pos heq]
        exact Or.inl rfl
      · rw [if_neg heq]
        exact Or.inr (Or.inl ⟨_, rfl⟩)
  · unfold sendActionOutcome
    by_cases hmt : actionType = "message" ∨ actionType = "notice" ∨
        actionType = "emote"
    · rw [if_pos hmt,
        if_neg (by rw [killCompleted_connectPending, hcp]; exact Bool.false_ne_true),
        hjoinN]
      exact Or.inr (Or.inl ⟨_, rfl⟩)
    · rw [if_neg hmt]
      by_cases htp : actionType = "topic"
      · rw [if_pos htp, hjoinN]
        exact Or.inr (Or.inl ⟨_, rfl⟩)
      · rw [if_neg htp]
        exact Or.inr (Or.inl ⟨_, rfl⟩)
  · unfold getOperatorsOutcome
    cases opts with
    | none => exact Or.inr (Or.inr rfl)
    | some o =>
      unfold getOperatorsStart
      dsimp only
      by_cases h1 : ¬ o.key = JSVal.undef ∧ o.key.isStr = false
      · rw [if_pos h1]
        exact Or.inr (Or.inl ⟨_, rfl⟩)
      · rw [if_neg h1]
        by_cases h2 : ¬ o.cacheDurationMs = JSVal.undef
        · rw [if_pos h2]
          by_cases h3 : o.cacheDurationMs.isPositiveInt = false
          · rw [if_pos h3]
            exact Or.inr (Or.inl ⟨_, rfl⟩)
          · rw [if_neg h3]
            by_cases h4 : cacheWarm = true
            · rw [if_pos h4]
              exact Or.inl rfl
            · rw [if_neg h4]
              dsimp only
              rw [killed_join_reject s hcp channel _]
              exact Or.inr (Or.inl ⟨_, rfl⟩)
        · rw [if_neg h2]
          dsimp only
          rw [killed_join_reject s hcp channel _]
          exact Or.inr (Or.inl ⟨_, rfl⟩)

/-- Witness for `killed_ops_benign` on the killed live fixture: `whois`
settles with the null-client TypeError. -/
theorem killed_ops_benign_witness :
    whoisOutcome (killCompleted sLive) = OpOutcome.nullClientError :=
  (killed_ops_benign sLive rfl ['#', 'c'] ['b', 'o', 'b'] none false
    "message" none true).2.2.2.1

/-- True exactly for a rejection with a sentinel message. -/
def isRejectOutcome : OpOutcome → Bool
  | OpOutcome.reject _ => true
  | _ => false

/-- Counterexample to claim C9 as stated: after `kill` completes, `whois`
neither resolves as a no-op nor rejects with a lifecycle sentinel — it
rejects with the TypeError raised by calling `whois` on the nulled client
handle. -/
theorem killed_whois_counterexample :
    whoisOutcome (killCompleted sLive) = OpOutcome.nullClientError ∧
    ¬ whoisOutcome (killCompleted sLive) = OpOutcome.resolveLocal ∧
    isRejectOutcome (whoisOutcome (killCompleted sLive)) = false := by
  refine ⟨by rfl, by decide, by rfl⟩

/-- Claim C10 (confirmed): calling `getOperators` with `opts` undefined or
null throws a TypeError synchronously while reading `opts.key`, before any
option validation, caching decision, join or other network activity. -/
theorem getOperators_null_opts_throws (s : Session) (channel : Str)
    (cacheWarm : Bool) :
    getOperatorsStart none cacheWarm = GetOpStart.throwTypeError ∧
    getOperatorsOutcome s channel none cacheWarm = OpOutcome.nullClientError :=
  ⟨rfl, rfl⟩

/-- Witness for `getOperators_null_opts_throws` on the live fixture. -/
theorem getOperators_null_opts_throws_witness :
    getOperatorsStart none true = GetOpStart.throwTypeError ∧
    getOperatorsOutcome sLive ['#', 'c'] none true = OpOutcome.nullClientError :=
  getOperators_null_opts_throws sLive ['#', 'c'] true
